import Mathlib

/-!
Shallow embedding of `gpu_monitor.py` (a curses GPU-fleet monitor).

The embedding mirrors the source functions one by one:
`parse_server`, `build_ssh_command`, `run_nvidiasmi_local`,
`run_nvidiasmi_remote`, `get_gpu_infos`, `get_user_info`,
`display_gpu_infos` and the per-cycle body of `main`.

Modelling conventions:
- Python exceptions that a function lets escape are `none` results
  (`Option`); exceptions caught inside a function are handled in the
  corresponding branch of the Lean definition.
- `subprocess.check_output` is abstracted by an oracle mapping the issued
  command to an outcome (`CmdOutcome`): success with output, a timeout
  (`subprocess.TimeoutExpired`, which carries any truncated output that the
  code never uses), or a non-zero exit (`subprocess.CalledProcessError`).
- XML already arrives as an element tree (`XmlNode`); `ET.fromstring` of
  raw bytes is identified with that tree.
- The curses surface is a `Screen` with known bounds; an `addstr` whose
  target cell or string extent lies outside the bounds raises
  `curses.error`, recorded as a `WriteAttempt` with `ok := false`.
- One deliberate simplification: `<pid>` text is required to be present
  when parsing a process node (the Python code would store `None`); every
  theorem below only exercises trees whose pid nodes carry text.
-/

/-- Drop leading and trailing whitespace characters (Python `str.strip()`
on the character list). -/
def stripWsChars (l : List Char) : List Char :=
  ((l.dropWhile (fun c => c.isWhitespace)).reverse.dropWhile
    (fun c => c.isWhitespace)).reverse

/-- Python `str.strip()`. -/
def pyStrip (s : String) : String := String.mk (stripWsChars s.data)

/-- Worker for `pySplitWs`: accumulate the current token (reversed). -/
def pySplitWsAux : List Char → List Char → List String
  | [], acc => if acc.isEmpty then [] else [String.mk acc.reverse]
  | c :: cs, acc =>
      if c.isWhitespace then
        if acc.isEmpty then pySplitWsAux cs []
        else String.mk acc.reverse :: pySplitWsAux cs []
      else pySplitWsAux cs (c :: acc)

/-- Python `str.split()` with no separator: split on whitespace runs,
dropping empty fragments. -/
def pySplitWs (s : String) : List String :=
  pySplitWsAux s.data []

/-- Worker for `pySplitNl`. -/
def pySplitNlAux : List Char → List Char → List String
  | [], acc => [String.mk acc.reverse]
  | c :: cs, acc =>
      if c = '\n' then String.mk acc.reverse :: pySplitNlAux cs []
      else pySplitNlAux cs (c :: acc)

/-- Python `str.split("\n")`: split at every newline, keeping empty
fragments (so the empty string yields one empty fragment). -/
def pySplitNl (s : String) : List String :=
  pySplitNlAux s.data []

/-- Accumulate decimal digits; fails on any non-digit character. -/
def parseDigitsAux : List Char → Nat → Option Nat
  | [], acc => some acc
  | c :: cs, acc =>
      if c.isDigit then parseDigitsAux cs (acc * 10 + (c.toNat - '0'.toNat))
      else none

/-- A non-empty all-digit character list read as a natural number. -/
def parseDigits : List Char → Option Nat
  | [] => none
  | l => parseDigitsAux l 0

/-- Python `int(s)`: strip whitespace, optional sign, decimal digits;
anything else raises `ValueError` (modelled as `none`). -/
def pyInt (s : String) : Option Int :=
  match stripWsChars s.data with
  | '-' :: rest => (parseDigits rest).map (fun n => -(n : Int))
  | '+' :: rest => (parseDigits rest).map (fun n => (n : Int))
  | l => (parseDigits l).map (fun n => (n : Int))

/-- The memory-field code path `int(text.split()[0])`: first whitespace
token of the text, read as an integer; the unit suffix is discarded. -/
def parseMemText (s : String) : Option Int :=
  match (pySplitWs s).head? with
  | some tok => pyInt tok
  | none => none

/-- Python `",".join l`. -/
def joinComma : List String → String
  | [] => ""
  | [x] => x
  | x :: y :: xs => x ++ "," ++ joinComma (y :: xs)

/-- An XML element: tag, optional text, child elements. -/
inductive XmlNode where
  | mk (tag : String) (text : Option String) (children : List XmlNode)

def XmlNode.tag : XmlNode → String
  | .mk t _ _ => t

def XmlNode.text : XmlNode → Option String
  | .mk _ t _ => t

def XmlNode.children : XmlNode → List XmlNode
  | .mk _ _ c => c

/-- `ElementTree.findall(tag)`: all direct children with the given tag. -/
def findAll (n : XmlNode) (tag : String) : List XmlNode :=
  n.children.filter (fun c => c.tag = tag)

/-- `ElementTree.find(tag)`: first direct child with the given tag. -/
def find1 (n : XmlNode) (tag : String) : Option XmlNode :=
  (findAll n tag).head?

/-- `ElementTree.findall("t1/t2")`: every `t2` child of every `t1` child,
in document order. -/
def findAllPath (n : XmlNode) (t1 t2 : String) : List XmlNode :=
  ((findAll n t1).map (fun c => findAll c t2)).flatten

/-- `ElementTree.find("t1/t2")`: first match of the two-step path. -/
def find1Path (n : XmlNode) (t1 t2 : String) : Option XmlNode :=
  (findAllPath n t1 t2).head?

/-- One `processes/process_info` entry: pid text and used memory (MiB). -/
structure ProcessEntry where
  pid : String
  used_memory : Int
deriving DecidableEq

/-- One parsed `gpu` node (a DeviceRecord). -/
structure GpuInfo where
  index : Option String
  name : Option String
  memory_total : Int
  memory_used : Int
  memory_free : Int
  processes : List ProcessEntry
deriving DecidableEq

/-- Parse a `process_info` node; any missing node/text or malformed
integer raises (propagates as `none`). -/
def parseProcess (p : XmlNode) : Option ProcessEntry :=
  match find1 p "pid" with
  | none => none
  | some pidNode =>
    match find1 p "used_memory" with
    | none => none
    | some um =>
      match um.text with
      | none => none
      | some umT =>
        match parseMemText umT with
        | none => none
        | some umV =>
          match pidNode.text with
          | none => none
          | some pid => some ⟨pid, umV⟩

/-- Read a memory field node (`fb_memory_usage/...` or `used_memory`):
`int(node.text.split()[0])`; missing node, missing text, or a first token
that is not an integer all raise. -/
def readMemField (o : Option XmlNode) : Option Int :=
  match o with
  | none => none
  | some n =>
    match n.text with
    | none => none
    | some t => parseMemText t

/-- The Python loop that builds a list, aborting the whole function on the
first exception. -/
def mapOpt {α β : Type} (f : α → Option β) : List α → Option (List β)
  | [] => some []
  | x :: xs =>
    match f x with
    | none => none
    | some y =>
      match mapOpt f xs with
      | none => none
      | some ys => some (y :: ys)

/-- `get_gpu_infos` body for one `gpu` node. -/
def parseGpu (g : XmlNode) : Option GpuInfo :=
  match find1 g "minor_number" with
  | none => none
  | some mn =>
    match find1 g "product_name" with
    | none => none
    | some pn =>
      match readMemField (find1Path g "fb_memory_usage" "total") with
      | none => none
      | some totV =>
        match readMemField (find1Path g "fb_memory_usage" "used") with
        | none => none
        | some usdV =>
          match readMemField (find1Path g "fb_memory_usage" "free") with
          | none => none
          | some freV =>
            match mapOpt parseProcess (findAllPath g "processes" "process_info") with
            | none => none
            | some procs =>
              some ⟨mn.text, pn.text, totV, usdV, freV, procs⟩

/-- `get_gpu_infos(nvidiasmi_output)`: `None` input yields `[]`; otherwise
parse every `gpu` node, any parse failure propagating out of the whole
call (an uncaught `ValueError`/`AttributeError`/`IndexError`). -/
def get_gpu_infos (out : Option XmlNode) : Option (List GpuInfo) :=
  match out with
  | none => some []
  | some root => mapOpt parseGpu (findAll root "gpu")

/-- Spec-side description of one parsed DeviceRecord (total, with
defaults): index/name texts, each memory field as the leading integer of
its text, processes in encountered order. Used to state what
`get_gpu_infos` returns on well-formed nodes. -/
def specGpuRecord (g : XmlNode) : GpuInfo :=
  ⟨(find1 g "minor_number").bind XmlNode.text,
   (find1 g "product_name").bind XmlNode.text,
   (readMemField (find1Path g "fb_memory_usage" "total")).getD 0,
   (readMemField (find1Path g "fb_memory_usage" "used")).getD 0,
   (readMemField (find1Path g "fb_memory_usage" "free")).getD 0,
   (findAllPath g "processes" "process_info").map (fun p =>
     ⟨((find1 p "pid").bind XmlNode.text).getD "",
      (readMemField (find1 p "used_memory")).getD 0⟩)⟩

/-- A well-formed memory field: node present, text present, leading token
an integer. -/
def wfMemNode (o : Option XmlNode) : Bool :=
  (readMemField o).isSome

/-- A well-formed `process_info` node. -/
def wfProcessNode (p : XmlNode) : Bool :=
  (match find1 p "pid" with
   | some pn => pn.text.isSome
   | none => false) &&
  wfMemNode (find1 p "used_memory")

/-- A well-formed `gpu` node, per the diagnostic-output contract. -/
def wfGpuNode (g : XmlNode) : Bool :=
  (find1 g "minor_number").isSome &&
  (find1 g "product_name").isSome &&
  wfMemNode (find1Path g "fb_memory_usage" "total") &&
  wfMemNode (find1Path g "fb_memory_usage" "used") &&
  wfMemNode (find1Path g "fb_memory_usage" "free") &&
  (findAllPath g "processes" "process_info").all wfProcessNode

/-- Outcome of a `subprocess.check_output` call: raw output, a
`TimeoutExpired` (carrying truncated output the code discards), or a
`CalledProcessError` with its detail. -/
inductive CmdOutcome (α : Type) where
  | success (out : α)
  | timedOut (leftover : α)
  | calledProcessError (detail : String)

/-- `parse_server`: `"IP -pPORT"` into host and optional port (the last
`-p`-flagged token wins). -/
def parse_server (s : String) : String × Option String :=
  let parts := pySplitWs s
  (parts.headD "",
   parts.tail.foldl (fun acc p => if p.startsWith "-p" then some (p.drop 2) else acc) none)

/-- `build_ssh_command`: ssh argv with optional `-p PORT` and
`user@host`. -/
def build_ssh_command (ssh_user : Option String) (server : String) (remote_cmd : String) :
    List String :=
  let hp := parse_server server
  let base := match hp.snd with
    | some p => ["ssh", "-p", p]
    | none => ["ssh"]
  let host := match ssh_user with
    | some u => u ++ "@" ++ hp.fst
    | none => hp.fst
  base ++ [host, remote_cmd]

/-- The remote diagnostic command string, with its embedded secondary
`timeout`. -/
def nvidiasmi_remote_cmd (cmd_timeout : Nat) : String :=
  "timeout " ++ (toString cmd_timeout ++ " nvidia-smi -q -x")

/-- Local diagnostic argv. -/
def nvidiasmi_local_argv : List String := ["nvidia-smi", "-q", "-x"]

/-- `run_nvidiasmi_local`: returns the raw output, or `None` plus a log
entry on timeout / non-zero exit. -/
def run_nvidiasmi_local {α : Type} (subproc : List String → CmdOutcome α) :
    Option α × List String :=
  match subproc nvidiasmi_local_argv with
  | .success o => (some o, [])
  | .timedOut _ => (none, ["nvidia-smi command timed out"])
  | .calledProcessError e => (none, ["nvidia-smi command failed: " ++ e])

/-- `run_nvidiasmi_remote`: ssh invocation of the timeout-wrapped
diagnostic command; `None` plus a log entry on failure. -/
def run_nvidiasmi_remote {α : Type} (ssh_user : Option String) (server : String)
    (cmd_timeout : Nat) (subproc : List String → CmdOutcome α) :
    Option α × List String :=
  match subproc (build_ssh_command ssh_user server (nvidiasmi_remote_cmd cmd_timeout)) with
  | .success o => (some o, [])
  | .timedOut _ => (none, ["Timeout while connecting to " ++ server])
  | .calledProcessError e => (none, ["Error running nvidia-smi on " ++ server ++ ": " ++ e])

/-- `server.split()[0] in [".", "localhost", "127.0.0.1"]` (server lines
are non-blank by construction in `main`). -/
def isLocalServer (server : String) : Bool :=
  let h := (pySplitWs server).headD ""
  h == "." || h == "localhost" || h == "127.0.0.1"

/-- The host-telemetry fetch performed per server in `main`'s loop. -/
def fetch_nvidiasmi (ssh_user : Option String) (cmd_timeout : Nat)
    (subproc : List String → CmdOutcome XmlNode) (server : String) :
    Option XmlNode × List String :=
  if isLocalServer server then run_nvidiasmi_local subproc
  else run_nvidiasmi_remote ssh_user server cmd_timeout subproc

/-- The ownership-lookup command string of `get_user_info` (line 140 of
the source); note it carries no embedded `timeout`. -/
def user_info_remote_cmd (pids : List String) : String :=
  "ps -o user= -p " ++ joinComma pids

/-- `get_user_info`: empty pid list short-circuits to an empty map with no
command issued; otherwise one batched lookup (the local shell branch and
the ssh branch run the same command string and handle failures with
identical log messages, so the transport is abstracted by the oracle).
Returns (owner map, log entries, commands issued). -/
def get_user_info (lookup : String → CmdOutcome String) (server : String)
    (pids : List String) :
    List (String × String) × List String × List String :=
  if pids.isEmpty then ([], [], [])
  else
    let remote_cmd := user_info_remote_cmd pids
    match lookup remote_cmd with
    | .success out =>
        (pids.zip (pySplitNl (pyStrip out)), [], [remote_cmd])
    | .timedOut _ => ([], ["Command timed out on " ++ server], [remote_cmd])
    | .calledProcessError e =>
        ([], ["Error getting user info on " ++ server ++ ": " ++ e], [remote_cmd])

/-- Python `dict` lookup for a dict built from an association list (a later
binding for the same key overrides an earlier one, as `dict(zip(...))`
does). -/
def pyDictGet : List (String × String) → String → Option String
  | [], _ => none
  | kv :: rest, k =>
    match pyDictGet rest k with
    | some v => some v
    | none => if kv.fst == k then some kv.snd else none

/-- `user_info.get(pid, "Unknown")`. -/
def ownerOf (m : List (String × String)) (pid : String) : String :=
  (pyDictGet m pid).getD "Unknown"

/-- `defaultdict(int)` update `user_memory[user] += mem`: bump the first
matching entry in place, else append. -/
def bumpUser : List (String × Int) → String → Int → List (String × Int)
  | [], u, mem => [(u, mem)]
  | kv :: rest, u, mem =>
      if kv.fst = u then (kv.fst, kv.snd + mem) :: rest
      else kv :: bumpUser rest u mem

/-- The per-device aggregation loop of `display_gpu_infos` (lines
193-196): owner defaults to "Unknown", totals accumulate in first-seen
insertion order. -/
def aggregateUsers (userInfo : List (String × String)) (ps : List ProcessEntry) :
    List (String × Int) :=
  ps.foldl (fun acc p => bumpUser acc (ownerOf userInfo p.pid) p.used_memory) []

/-- First value bound to a key in an insertion-ordered total map, 0 when
absent (spec-side helper for stating aggregation sums). -/
def lookupD : List (String × Int) → String → Int
  | [], _ => 0
  | kv :: rest, u => if kv.fst = u then kv.snd else lookupD rest u

/-- Spec-side: total memory of the processes owned by `u`. -/
def sumMemOf (m : List (String × String)) (u : String) : List ProcessEntry → Int
  | [] => 0
  | p :: ps => (if ownerOf m p.pid = u then p.used_memory else 0) + sumMemOf m u ps

/-- Spec-side: deduplicate keeping first occurrences, preserving order. -/
def firstSeen : List String → List String
  | [] => []
  | u :: rest => u :: firstSeen (rest.filter (fun v => ¬(v = u)))
termination_by l => l.length
decreasing_by
  simp only [List.length_cons]
  exact Nat.lt_succ_of_le (List.length_filter_le _ _)

/-- The curses surface: known row/column bounds. -/
structure Screen where
  lines : Nat
  cols : Nat
deriving DecidableEq

/-- One `addstr`/`addch` attempt; `ok := false` records a raised (and
caught) `curses.error`. -/
structure WriteAttempt where
  row : Nat
  col : Nat
  text : String
  ok : Bool
deriving DecidableEq

/-- Whether an `addstr` of `text` at (row, col) fits the surface. -/
def addstrOk (scr : Screen) (row col : Nat) (text : String) : Bool :=
  decide (row < scr.lines) && decide (col + text.length ≤ scr.cols)

/-- A run of consecutive `addstr` calls on one row (the first positioned,
the rest continuing at the cursor): stop at the first raised error.
Returns the recorded attempts and whether all writes succeeded. -/
def trySeq (scr : Screen) (row : Nat) :
    List String → Nat → List WriteAttempt → List WriteAttempt × Bool
  | [], _, ws => (ws, true)
  | t :: ts, c, ws =>
      let ok := addstrOk scr row c t
      let ws2 := ws ++ [⟨row, c, t, ok⟩]
      if ok then trySeq scr row ts (c + t.length) ws2 else (ws2, false)

/-- The per-user display loop (lines 198-203): four `addstr` segments then
`row += 1`; a raised error leaves `row` unbumped and breaks (flag). -/
def renderUsers (scr : Screen) (col : Nat) :
    List (String × Int) → Nat → List WriteAttempt → Nat × List WriteAttempt × Bool
  | [], row, ws => (row, ws, false)
  | um :: rest, row, ws =>
      let t := trySeq scr row ["  User: ", um.fst, ", Memory Used: ",
        toString um.snd ++ " MiB"] col ws
      if t.snd then renderUsers scr col rest (row + 1) t.fst
      else (row, t.fst, true)

/-- The `try:` body for one device (lines 178-205): info lines, the
per-device ownership lookup and aggregation, user lines, blank separator
line. Returns (row, writes, logs, commands, crashed); `crashed` means a
`curses.error` was raised (caught by the `except` as a `break`). -/
def renderDevice (scr : Screen) (lookup : String → CmdOutcome String) (server : String)
    (col : Nat) (g : GpuInfo) (row : Nat) (ws : List WriteAttempt) :
    Nat × List WriteAttempt × List String × List String × Bool :=
  let t1 := trySeq scr row ["GPU " ++ (g.index.getD "None") ++ " - " ++ (g.name.getD "None")]
    col ws
  if t1.snd then
    let t2 := trySeq scr (row + 1) ["  Memory Total: " ++ toString g.memory_total ++ " MiB"]
      col t1.fst
    if t2.snd then
      let t3 := trySeq scr (row + 2) ["  Memory Used: ", toString g.memory_used ++ " MiB"]
        col t2.fst
      if t3.snd then
        let t4 := trySeq scr (row + 3) ["  Memory Free: ", toString g.memory_free ++ " MiB"]
          col t3.fst
        if t4.snd then
          let pids := g.processes.map ProcessEntry.pid
          let ui := get_user_info lookup server pids
          let um := aggregateUsers ui.fst g.processes
          let r := renderUsers scr col um (row + 4) t4.fst
          if r.snd.snd then (r.fst, r.snd.fst, ui.snd.fst, ui.snd.snd, true)
          else (r.fst + 1, r.snd.fst, ui.snd.fst, ui.snd.snd, false)
        else (row + 3, t4.fst, [], [], true)
      else (row + 2, t3.fst, [], [], true)
    else (row + 1, t2.fst, [], [], true)
  else (row, t1.fst, [], [], true)

/-- The device loop of `display_gpu_infos` (lines 175-207): pre-check
`row >= LINES - 1` before each device, stop the host on a caught error. -/
def renderDevices (scr : Screen) (lookup : String → CmdOutcome String) (server : String)
    (col : Nat) :
    List GpuInfo → Nat → List WriteAttempt → List String → List String →
    Nat × List WriteAttempt × List String × List String
  | [], row, ws, logs, cmds => (row, ws, logs, cmds)
  | g :: rest, row, ws, logs, cmds =>
      if row ≥ scr.lines - 1 then (row, ws, logs, cmds)
      else
        let d := renderDevice scr lookup server col g row ws
        if d.snd.snd.snd.snd then
          (d.fst, d.snd.fst, logs ++ d.snd.snd.fst, cmds ++ d.snd.snd.snd.fst)
        else renderDevices scr lookup server col rest d.fst d.snd.fst
          (logs ++ d.snd.snd.fst) (cmds ++ d.snd.snd.snd.fst)

/-- The between-host horizontal rule text `"-" * (COLS // 2 - 1)`. -/
def dashRule (scr : Screen) : String :=
  String.mk (List.replicate (scr.cols / 2 - 1) '-')

/-- Result of rendering one host block. -/
structure RenderOut where
  row : Nat
  writes : List WriteAttempt
  logs : List String
  cmds : List String
deriving DecidableEq

/-- `display_gpu_infos`: header (a failed header returns the starting
offset at once), device loop, optional dash separator (its failure is a
no-op), then `row += 2`. -/
def display_gpu_infos (scr : Screen) (lookup : String → CmdOutcome String)
    (server : String) (gpu_infos : List GpuInfo) (col row_offset : Nat) : RenderOut :=
  let hdr := trySeq scr row_offset ["Server: " ++ server] col []
  if hdr.snd then
    let d := renderDevices scr lookup server col gpu_infos (row_offset + 1) hdr.fst [] []
    let ws2 := if d.fst < scr.lines - 1 then (trySeq scr d.fst [dashRule scr] col d.snd.fst).fst
      else d.snd.fst
    ⟨d.fst + 2, ws2, d.snd.snd.fst, d.snd.snd.snd⟩
  else ⟨row_offset, hdr.fst, [], []⟩

/-- Accumulated observable state of one poll cycle. -/
structure CycleOut where
  writes : List WriteAttempt
  logs : List String
  cmds : List String
  leftOff : Nat
  rightOff : Nat
deriving DecidableEq

/-- The per-server body of `main`'s while loop: fetch, parse, render into
the column picked by index parity. A parse failure is uncaught there, so
it aborts the whole cycle and kills the process (`none`). -/
def pollServers (scr : Screen) (ssh_user : Option String) (cmd_timeout : Nat)
    (subproc : List String → CmdOutcome XmlNode) (lookup : String → CmdOutcome String) :
    List String → Nat → CycleOut → Option CycleOut
  | [], _, acc => some acc
  | server :: rest, i, acc =>
      let f := fetch_nvidiasmi ssh_user cmd_timeout subproc server
      match get_gpu_infos f.fst with
      | none => none
      | some infos =>
          let col := if i % 2 = 0 then 0 else scr.cols / 2 + 1
          let off := if i % 2 = 0 then acc.leftOff else acc.rightOff
          let r := display_gpu_infos scr lookup server infos col off
          let acc2 : CycleOut :=
            if i % 2 = 0 then
              ⟨acc.writes ++ r.writes, acc.logs ++ f.snd ++ r.logs,
               acc.cmds ++ r.cmds, r.row, acc.rightOff⟩
            else
              ⟨acc.writes ++ r.writes, acc.logs ++ f.snd ++ r.logs,
               acc.cmds ++ r.cmds, acc.leftOff, r.row⟩
          pollServers scr ssh_user cmd_timeout subproc lookup rest (i + 1) acc2

/-- The full-height vertical separator painted after all hosts (`addch`
attempts down the midpoint column, errors swallowed). -/
def verticalRuleWrites (scr : Screen) : List WriteAttempt :=
  (List.range scr.lines).map
    (fun r => ⟨r, scr.cols / 2, "|", addstrOk scr r (scr.cols / 2) "|"⟩)

/-- One iteration of `main`'s while loop (clear, render all hosts,
separator); `none` when an uncaught exception terminates the process. -/
def mainCycle (scr : Screen) (ssh_user : Option String) (cmd_timeout : Nat)
    (subproc : List String → CmdOutcome XmlNode) (lookup : String → CmdOutcome String)
    (servers : List String) : Option CycleOut :=
  match pollServers scr ssh_user cmd_timeout subproc lookup servers 0 ⟨[], [], [], 0, 0⟩ with
  | none => none
  | some acc =>
      some ⟨acc.writes ++ verticalRuleWrites scr, acc.logs, acc.cmds,
        acc.leftOff, acc.rightOff⟩

/-- Whether a remote command string is wrapped in a server-side
`timeout` (the secondary-timeout pattern of `run_nvidiasmi_remote`). -/
def embedsTimeout (s : String) : Bool :=
  "timeout ".data.isPrefixOf s.data

/-! ## Concrete sample inputs and the attempt-faithfulness predicate -/

/-- A two-device sample tree used to witness C4. -/
def c4SampleGpu (idx pidText : String) : XmlNode :=
  .mk "gpu" none
    [.mk "minor_number" (some idx) [],
     .mk "product_name" (some "GeForce RTX") [],
     .mk "fb_memory_usage" none
       [.mk "total" (some "8000 MiB") [],
        .mk "used" (some "2000 MiB") [],
        .mk "free" (some "6000 MiB") []],
     .mk "processes" none
       [.mk "process_info" none
          [.mk "pid" (some pidText) [],
           .mk "used_memory" (some "500 MiB") []]]]

/-- Root element of the C4 sample tree. -/
def c4SampleRoot : XmlNode :=
  .mk "nvidia_smi_log" none [c4SampleGpu "0" "123", c4SampleGpu "1" "456"]

/-- The malformed tree used against C1: its total-memory text "abc MiB"
has a leading token that is not an integer. -/
def c1BadRoot : XmlNode :=
  .mk "nvidia_smi_log" none
    [.mk "gpu" none
      [.mk "minor_number" (some "0") [],
       .mk "product_name" (some "GeForce") [],
       .mk "fb_memory_usage" none
         [.mk "total" (some "abc MiB") [],
          .mk "used" (some "0 MiB") [],
          .mk "free" (some "0 MiB") []],
       .mk "processes" none []]]

/-- Devices used by the C3 counterexample: two GPUs with one process
each. -/
def c3gpu1 : GpuInfo := ⟨some "0", some "G1", 8000, 150, 7850, [⟨"1", 100⟩]⟩

/-- Second device of the C3 counterexample. -/
def c3gpu2 : GpuInfo := ⟨some "1", some "G2", 8000, 40, 7960, [⟨"2", 30⟩]⟩

/-- Owner-map oracle for the C5 counterexample. -/
def c5lookup : String → CmdOutcome String := fun c =>
  if c == "ps -o user= -p 1,2" then CmdOutcome.success "A\nB" else CmdOutcome.success "A"

/-- First device of the C5 counterexample: user A with 100 MiB and user B
with 50 MiB. -/
def c5gpu1 : GpuInfo := ⟨some "0", some "G1", 8000, 150, 7850, [⟨"1", 100⟩, ⟨"2", 50⟩]⟩

/-- Second device of the C5 counterexample: user A again, 30 MiB. -/
def c5gpu2 : GpuInfo := ⟨some "1", some "G2", 8000, 40, 7960, [⟨"3", 30⟩]⟩

/-- The device used by the C6 counterexample. -/
def c6gpu : GpuInfo := ⟨some "0", some "G", 8000, 100, 7900, [⟨"1", 100⟩]⟩

/-- A recorded attempt is faithful: its flag is exactly the bounds check
of its own coordinates and text. -/
def attemptFits (scr : Screen) (w : WriteAttempt) : Prop :=
  w.ok = addstrOk scr w.row w.col w.text

/-! ## Helper lemmas -/

/-- A list is a prefix of itself followed by anything. -/
theorem isPrefixOf_append_self : ∀ (l t : List Char), l.isPrefixOf (l ++ t) = true := by
  intro l t
  induction l with
  | nil => simp [List.isPrefixOf]
  | cons c cs ih => simp [List.isPrefixOf, ih]

/-- `trySeq` on a single text is one recorded attempt whose flag is the
bounds check. -/
theorem trySeq_single (scr : Screen) (row c : Nat) (t : String) (ws : List WriteAttempt) :
    trySeq scr row [t] c ws
      = (ws ++ [⟨row, c, t, addstrOk scr row c t⟩], addstrOk scr row c t) := by
  cases h : addstrOk scr row c t <;> simp [trySeq, h]

/-- `get_user_info` issues exactly one lookup command when given pids and
none otherwise, whatever the outcome. -/
theorem get_user_info_cmds (lookup : String → CmdOutcome String) (server : String)
    (pids : List String) :
    (get_user_info lookup server pids).snd.snd
      = if pids.isEmpty then [] else [user_info_remote_cmd pids] := by
  unfold get_user_info
  by_cases h : pids.isEmpty
  · simp [h]
  · cases hl : lookup (user_info_remote_cmd pids) <;> simp [h, hl]

/-- Keys absent from the zipped pid-to-user list resolve to nothing. -/
theorem pyDictGet_zip_none : ∀ (a b : List String) (k : String),
    k ∉ a.take b.length → pyDictGet (a.zip b) k = none := by
  intro a
  induction a with
  | nil => intro b k _; simp [List.zip_nil_left, pyDictGet]
  | cons x a ih =>
    intro b k h
    cases b with
    | nil => simp [List.zip_nil_right, pyDictGet]
    | cons y b =>
      simp only [List.length_cons, List.take_succ_cons, List.mem_cons, not_or] at h
      obtain ⟨h1, h2⟩ := h
      have hrest : pyDictGet (List.zipWith Prod.mk a b) k = none := ih b k h2
      have hb : (x == k) = false := beq_eq_false_iff_ne.mpr (fun he => h1 he.symm)
      simp [List.zip_cons_cons, pyDictGet, hrest, hb]

/-! ## C9 -/

/-- C9 (amended): the remote diagnostic command string embeds the
secondary `timeout`; the ownership-lookup remote command string does
not. -/
theorem c9_secondary_timeout : ∀ (ct : Nat) (pids : List String),
    embedsTimeout (nvidiasmi_remote_cmd ct) = true ∧
    embedsTimeout (user_info_remote_cmd pids) = false := by
  intro ct pids
  constructor
  · unfold embedsTimeout nvidiasmi_remote_cmd
    rw [String.data_append]
    exact isPrefixOf_append_self _ _
  · unfold embedsTimeout user_info_remote_cmd
    rw [String.data_append]
    rfl

/-- C9 counterexample: the claim quantifies over every remote invocation
issued by the command runner, but the ownership-lookup invocation for pid
"123" sends the bare command string `"ps -o user= -p 123"`, which embeds
no server-side timeout. -/
theorem c9_counterexample :
    user_info_remote_cmd ["123"] = "ps -o user= -p 123" ∧
    embedsTimeout (user_info_remote_cmd ["123"]) = false := by
  exact ⟨rfl, rfl⟩

/-- If some server's fetched output fails to parse, the cycle body aborts
with an uncaught exception. -/
theorem pollServers_none (scr : Screen) (su : Option String) (ct : Nat)
    (subproc : List String → CmdOutcome XmlNode) (lookup : String → CmdOutcome String) :
    ∀ (servers : List String) (i : Nat) (acc : CycleOut),
      (∃ s ∈ servers, get_gpu_infos (fetch_nvidiasmi su ct subproc s).fst = none) →
      pollServers scr su ct subproc lookup servers i acc = none := by
  intro servers
  induction servers with
  | nil =>
    intro i acc h
    rcases h with ⟨s, hs, _⟩
    simp at hs
  | cons s rest ih =>
    intro i acc h
    cases hg : get_gpu_infos (fetch_nvidiasmi su ct subproc s).fst with
    | none => simp [pollServers, hg]
    | some infos =>
      rcases h with ⟨x, hx, hfail⟩
      rcases List.mem_cons.mp hx with rfl | hx2
      · rw [hg] at hfail
        exact absurd hfail (by simp)
      · simp only [pollServers, hg]
        exact ih _ _ ⟨x, hx2, hfail⟩

/-- If every server's fetched output parses, the cycle body completes. -/
theorem pollServers_isSome (scr : Screen) (su : Option String) (ct : Nat)
    (subproc : List String → CmdOutcome XmlNode) (lookup : String → CmdOutcome String) :
    ∀ (servers : List String) (i : Nat) (acc : CycleOut),
      (∀ s ∈ servers, (get_gpu_infos (fetch_nvidiasmi su ct subproc s).fst).isSome) →
      (pollServers scr su ct subproc lookup servers i acc).isSome := by
  intro servers
  induction servers with
  | nil => intro i acc _; simp [pollServers]
  | cons s rest ih =>
    intro i acc h
    have hs := h s (by simp)
    rw [Option.isSome_iff_exists] at hs
    obtain ⟨infos, hg⟩ := hs
    simp only [pollServers, hg]
    exact ih _ _ (fun x hx => h x (by simp [hx]))

/-- `mainCycle` lifting of `pollServers_none`. -/
theorem mainCycle_none (scr : Screen) (su : Option String) (ct : Nat)
    (subproc : List String → CmdOutcome XmlNode) (lookup : String → CmdOutcome String)
    (servers : List String)
    (h : ∃ s ∈ servers, get_gpu_infos (fetch_nvidiasmi su ct subproc s).fst = none) :
    mainCycle scr su ct subproc lookup servers = none := by
  unfold mainCycle
  rw [pollServers_none scr su ct subproc lookup servers 0 ⟨[], [], [], 0, 0⟩ h]

/-- `mainCycle` lifting of `pollServers_isSome`. -/
theorem mainCycle_isSome (scr : Screen) (su : Option String) (ct : Nat)
    (subproc : List String → CmdOutcome XmlNode) (lookup : String → CmdOutcome String)
    (servers : List String)
    (h : ∀ s ∈ servers, (get_gpu_infos (fetch_nvidiasmi su ct subproc s).fst).isSome) :
    (mainCycle scr su ct subproc lookup servers).isSome := by
  unfold mainCycle
  have := pollServers_isSome scr su ct subproc lookup servers 0 ⟨[], [], [], 0, 0⟩ h
  rw [Option.isSome_iff_exists] at this
  obtain ⟨acc, hacc⟩ := this
  simp [hacc]

/-- A fetch whose subprocess times out returns an absent result. -/
theorem fetch_timedOut_fst_none (su : Option String) (ct : Nat)
    (subproc : List String → CmdOutcome XmlNode) (server : String)
    (h : ∀ argv, ∃ lv, subproc argv = CmdOutcome.timedOut lv) :
    (fetch_nvidiasmi su ct subproc server).fst = none := by
  unfold fetch_nvidiasmi run_nvidiasmi_local run_nvidiasmi_remote
  by_cases hl : isLocalServer server = true
  · obtain ⟨lv, hv⟩ := h nvidiasmi_local_argv
    simp [hl, hv]
  · obtain ⟨lv, hv⟩ := h (build_ssh_command su server (nvidiasmi_remote_cmd ct))
    simp [hl, hv]

/-! ## C7 -/

/-- C7: a timed-out telemetry fetch returns an absent result (the
truncated output carried by the timeout is discarded, never returned) plus
a log entry; a non-zero exit returns an absent result plus a log entry
carrying the detail; and a cycle in which every subprocess times out still
completes (the loop continues with the other hosts). -/
theorem c7_runner_failure_handling :
  ∀ (α : Type) (subproc : List String → CmdOutcome α) (su : Option String)
    (server : String) (ct : Nat) (lv : α) (d : String)
    (scr : Screen) (lookup : String → CmdOutcome String) (servers : List String)
    (sub2 : List String → CmdOutcome XmlNode),
  (subproc nvidiasmi_local_argv = CmdOutcome.timedOut lv →
      run_nvidiasmi_local subproc = (none, ["nvidia-smi command timed out"])) ∧
  (subproc nvidiasmi_local_argv = CmdOutcome.calledProcessError d →
      run_nvidiasmi_local subproc = (none, ["nvidia-smi command failed: " ++ d])) ∧
  (subproc (build_ssh_command su server (nvidiasmi_remote_cmd ct)) = CmdOutcome.timedOut lv →
      run_nvidiasmi_remote su server ct subproc
        = (none, ["Timeout while connecting to " ++ server])) ∧
  (subproc (build_ssh_command su server (nvidiasmi_remote_cmd ct))
        = CmdOutcome.calledProcessError d →
      run_nvidiasmi_remote su server ct subproc
        = (none, ["Error running nvidia-smi on " ++ server ++ ": " ++ d])) ∧
  ((∀ argv, ∃ lv2, sub2 argv = CmdOutcome.timedOut lv2) →
      (mainCycle scr su ct sub2 lookup servers).isSome) := by
  intro α subproc su server ct lv d scr lookup servers sub2
  refine ⟨?_, ?_, ?_, ?_, ?_⟩
  · intro h; unfold run_nvidiasmi_local; rw [h]
  · intro h; unfold run_nvidiasmi_local; rw [h]
  · intro h; unfold run_nvidiasmi_remote; rw [h]
  · intro h; unfold run_nvidiasmi_remote; rw [h]
  · intro h
    apply mainCycle_isSome
    intro s _
    rw [fetch_timedOut_fst_none su ct sub2 s h]
    rfl

/-- C7 witness at concrete inputs. -/
theorem c7_witness :
    run_nvidiasmi_local (fun _ => CmdOutcome.timedOut (0 : Nat))
      = (none, ["nvidia-smi command timed out"]) ∧
    @run_nvidiasmi_remote String (some "bob") "10.0.0.1 -p80" 10
        (fun _ => CmdOutcome.calledProcessError "exit 1")
      = (none, ["Error running nvidia-smi on 10.0.0.1 -p80: exit 1"]) ∧
    (mainCycle ⟨24, 80⟩ none 10 (fun _ => CmdOutcome.timedOut (XmlNode.mk "x" none []))
        (fun _ => CmdOutcome.success "") ["hostA", "localhost"]).isSome := by
  refine ⟨?_, ?_, ?_⟩
  · exact (c7_runner_failure_handling Nat (fun _ => CmdOutcome.timedOut 0) none "s" 0 0 ""
      ⟨0, 0⟩ (fun _ => CmdOutcome.success "") [] (fun _ => CmdOutcome.success (.mk "x" none []))).1
      rfl
  · exact (c7_runner_failure_handling String
      (fun _ => CmdOutcome.calledProcessError "exit 1") (some "bob") "10.0.0.1 -p80" 10 ""
      "exit 1" ⟨0, 0⟩ (fun _ => CmdOutcome.success "") []
      (fun _ => CmdOutcome.success (.mk "x" none []))).2.2.2.1 rfl
  · exact (c7_runner_failure_handling Nat (fun _ => CmdOutcome.timedOut 0) none "s" 0 0 ""
      ⟨24, 80⟩ (fun _ => CmdOutcome.success "") ["hostA", "localhost"]
      (fun _ => CmdOutcome.timedOut (XmlNode.mk "x" none []))).2.2.2.2
      (fun argv => ⟨XmlNode.mk "x" none [], rfl⟩)

/-! ## C8 -/

/-- C8: owner resolution for an empty identifier set issues no lookup
command and returns an empty map; on timeout or non-zero exit of the
lookup command it returns an empty map plus a log entry (and, being a
total function, never aborts the cycle). -/
theorem c8_resolver_failure_handling :
  ∀ (lookup : String → CmdOutcome String) (server : String) (pids : List String)
    (lv e : String),
  (get_user_info lookup server [] = ([], [], [])) ∧
  (pids ≠ [] → lookup (user_info_remote_cmd pids) = CmdOutcome.timedOut lv →
      get_user_info lookup server pids
        = ([], ["Command timed out on " ++ server], [user_info_remote_cmd pids])) ∧
  (pids ≠ [] → lookup (user_info_remote_cmd pids) = CmdOutcome.calledProcessError e →
      get_user_info lookup server pids
        = ([], ["Error getting user info on " ++ server ++ ": " ++ e],
           [user_info_remote_cmd pids])) := by
  intro lookup server pids lv e
  refine ⟨rfl, ?_, ?_⟩
  · intro hne h
    have hempty : pids.isEmpty = false := by
      cases pids with
      | nil => exact absurd rfl hne
      | cons p ps => rfl
    simp [get_user_info, hempty, h]
  · intro hne h
    have hempty : pids.isEmpty = false := by
      cases pids with
      | nil => exact absurd rfl hne
      | cons p ps => rfl
    simp [get_user_info, hempty, h]

/-- C8 witness at concrete inputs. -/
theorem c8_witness :
    get_user_info (fun _ => CmdOutcome.success "alice") "hostA" [] = ([], [], []) ∧
    get_user_info (fun _ => CmdOutcome.timedOut "") "hostA" ["123"]
      = ([], ["Command timed out on hostA"], ["ps -o user= -p 123"]) := by
  refine ⟨(c8_resolver_failure_handling (fun _ => CmdOutcome.success "alice") "hostA" []
    "" "").1, ?_⟩
  exact (c8_resolver_failure_handling (fun _ => CmdOutcome.timedOut "") "hostA" ["123"]
    "" "").2.1 (by decide) rfl

/-! ## C2 -/

/-- C2 (amended): the OwnerMap is built by positionally zipping the pid
list against the returned lines, truncating at the shorter side, so a pid
beyond the returned lines is absent from the map (not bound to any
sentinel); on resolution failure the map is empty; a pid missing from the
map is rendered as "Unknown" by the aggregation-time default, not by a
stored key. -/
theorem c2_owner_map_best_effort :
  ∀ (lookup : String → CmdOutcome String) (server : String) (pids : List String)
    (out lv e : String) (m : List (String × String)) (pid : String),
  (pids ≠ [] → lookup (user_info_remote_cmd pids) = CmdOutcome.success out →
      (get_user_info lookup server pids).fst = pids.zip (pySplitNl (pyStrip out))) ∧
  (pids ≠ [] → lookup (user_info_remote_cmd pids) = CmdOutcome.success out →
      ∀ k, k ∉ pids.take (pySplitNl (pyStrip out)).length →
        pyDictGet (get_user_info lookup server pids).fst k = none) ∧
  (pids ≠ [] → lookup (user_info_remote_cmd pids) = CmdOutcome.timedOut lv →
      (get_user_info lookup server pids).fst = []) ∧
  (pids ≠ [] → lookup (user_info_remote_cmd pids) = CmdOutcome.calledProcessError e →
      (get_user_info lookup server pids).fst = []) ∧
  (pyDictGet m pid = none → ownerOf m pid = "Unknown") := by
  intro lookup server pids out lv e m pid
  have hempty : pids ≠ [] → pids.isEmpty = false := by
    intro hne
    cases pids with
    | nil => exact absurd rfl hne
    | cons p ps => rfl
  refine ⟨?_, ?_, ?_, ?_, ?_⟩
  · intro hne h
    simp [get_user_info, hempty hne, h]
  · intro hne h k hk
    have hz : (get_user_info lookup server pids).fst
        = pids.zip (pySplitNl (pyStrip out)) := by
      simp [get_user_info, hempty hne, h]
    rw [hz]
    exact pyDictGet_zip_none pids (pySplitNl (pyStrip out)) k hk
  · intro hne h
    simp [get_user_info, hempty hne, h]
  · intro hne h
    simp [get_user_info, hempty hne, h]
  · intro h
    unfold ownerOf
    rw [h]
    rfl

/-- C2 counterexample: with a timed-out lookup the OwnerMap is empty, so
pid "123" is not a key at all (nothing maps it to a sentinel); with a
successful lookup returning a single line for two pids, pid "2" is
likewise absent from the map rather than bound to "unknown". -/
theorem c2_counterexample :
    (get_user_info (fun _ => CmdOutcome.timedOut "") "hostA" ["123"]).fst = [] ∧
    pyDictGet (get_user_info (fun _ => CmdOutcome.timedOut "") "hostA" ["123"]).fst "123"
      = none ∧
    (get_user_info (fun _ => CmdOutcome.success "alice") "hostA" ["1", "2"]).fst
      = [("1", "alice")] ∧
    pyDictGet (get_user_info (fun _ => CmdOutcome.success "alice") "hostA" ["1", "2"]).fst "2"
      = none := by
  exact ⟨rfl, rfl, rfl, rfl⟩

/-- C2 witness at concrete inputs. -/
theorem c2_witness :
    (get_user_info (fun _ => CmdOutcome.success "ann\nbob") "h" ["5", "6", "7"]).fst
      = ["5", "6", "7"].zip (pySplitNl (pyStrip "ann\nbob")) ∧
    pyDictGet (get_user_info (fun _ => CmdOutcome.success "ann\nbob") "h"
      ["5", "6", "7"]).fst "7" = none ∧
    ownerOf [] "9" = "Unknown" := by
  refine ⟨?_, ?_, ?_⟩
  · exact (c2_owner_map_best_effort (fun _ => CmdOutcome.success "ann\nbob") "h"
      ["5", "6", "7"] "ann\nbob" "" "" [] "9").1 (by decide) rfl
  · exact (c2_owner_map_best_effort (fun _ => CmdOutcome.success "ann\nbob") "h"
      ["5", "6", "7"] "ann\nbob" "" "" [] "9").2.1 (by decide) rfl "7" (by decide)
  · exact (c2_owner_map_best_effort (fun _ => CmdOutcome.success "ann\nbob") "h"
      ["5", "6", "7"] "ann\nbob" "" "" [] "9").2.2.2.2 rfl

/-! ## C4 -/

/-- On a list whose elements all map to `some`, the abort-on-failure loop
returns the pointwise image. -/
theorem mapOpt_eq_map {α β : Type} (f : α → Option β) (g : α → β) :
    ∀ l : List α, (∀ x ∈ l, f x = some (g x)) → mapOpt f l = some (l.map g) := by
  intro l
  induction l with
  | nil => intro _; rfl
  | cons x xs ih =>
    intro h
    have hx := h x (by simp)
    have hxs := ih (fun y hy => h y (by simp [hy]))
    simp [mapOpt, hx, hxs]

/-- A well-formed process node parses to its spec-side record. -/
theorem parseProcess_wf (p : XmlNode) (h : wfProcessNode p = true) :
    parseProcess p = some ⟨((find1 p "pid").bind XmlNode.text).getD "",
      (readMemField (find1 p "used_memory")).getD 0⟩ := by
  unfold wfProcessNode at h
  rw [Bool.and_eq_true] at h
  obtain ⟨h1, h2⟩ := h
  unfold wfMemNode at h2
  cases hp : find1 p "pid" with
  | none => rw [hp] at h1; simp at h1
  | some pn =>
    rw [hp] at h1
    have h1t : pn.text.isSome = true := h1
    cases ht : pn.text with
    | none => rw [ht] at h1t; simp at h1t
    | some pid =>
      cases hu : find1 p "used_memory" with
      | none => rw [hu] at h2; simp [readMemField] at h2
      | some um =>
        rw [hu] at h2
        cases hut : um.text with
        | none => simp [readMemField, hut] at h2
        | some t =>
          cases hv : parseMemText t with
          | none => simp [readMemField, hut, hv] at h2
          | some v =>
            simp [parseProcess, hp, hu, hut, hv, ht, readMemField]

/-- A well-formed gpu node parses to its spec-side record. -/
theorem parseGpu_wf (g : XmlNode) (h : wfGpuNode g = true) :
    parseGpu g = some (specGpuRecord g) := by
  unfold wfGpuNode at h
  simp only [Bool.and_eq_true] at h
  obtain ⟨⟨⟨⟨⟨h1, h2⟩, h3⟩, h4⟩, h5⟩, h6⟩ := h
  rw [Option.isSome_iff_exists] at h1 h2
  obtain ⟨mn, hmn⟩ := h1
  obtain ⟨pn, hpn⟩ := h2
  unfold wfMemNode at h3 h4 h5
  rw [Option.isSome_iff_exists] at h3 h4 h5
  obtain ⟨totV, htot⟩ := h3
  obtain ⟨usdV, husd⟩ := h4
  obtain ⟨freV, hfre⟩ := h5
  have hprocs : mapOpt parseProcess (findAllPath g "processes" "process_info")
      = some ((findAllPath g "processes" "process_info").map (fun p =>
          (⟨((find1 p "pid").bind XmlNode.text).getD "",
            (readMemField (find1 p "used_memory")).getD 0⟩ : ProcessEntry))) := by
    apply mapOpt_eq_map
    intro p hp
    exact parseProcess_wf p (by
      rw [List.all_eq_true] at h6
      exact h6 p hp)
  simp [parseGpu, hmn, hpn, htot, husd, hfre, hprocs, specGpuRecord]

/-- C4: an absent input parses to the empty device list; the memory text
"1024 MiB" parses to the integer 1024; and a tree whose gpu nodes are all
well-formed parses to exactly one DeviceRecord per gpu node, in document
order, with each memory field the leading integer of its text and each
device's process entries in encountered order (the image of
`specGpuRecord`). -/
theorem c4_parse_shape :
    get_gpu_infos none = some [] ∧
    parseMemText "1024 MiB" = some 1024 ∧
    ∀ root : XmlNode, (∀ g ∈ findAll root "gpu", wfGpuNode g = true) →
      get_gpu_infos (some root) = some ((findAll root "gpu").map specGpuRecord) := by
  refine ⟨rfl, rfl, ?_⟩
  intro root h
  unfold get_gpu_infos
  exact mapOpt_eq_map parseGpu specGpuRecord (findAll root "gpu")
    (fun g hg => parseGpu_wf g (h g hg))

/-- C4 witness: the sample tree is well-formed and parses to the mapped
spec records (two devices, document order). -/
theorem c4_witness :
    get_gpu_infos (some c4SampleRoot)
      = some ((findAll c4SampleRoot "gpu").map specGpuRecord) ∧
    (findAll c4SampleRoot "gpu").length = 2 ∧
    ((findAll c4SampleRoot "gpu").map specGpuRecord).map GpuInfo.memory_total
      = [8000, 8000] := by
  refine ⟨c4_parse_shape.2.2 c4SampleRoot (by decide), by decide, by decide⟩

/-! ## C1 -/

/-- C1 (amended): a memory field whose text is not parseable as an integer
makes `get_gpu_infos` fail, and that failure is uncaught in the poll loop:
the whole cycle aborts and the process terminates (no bare header for that
host, no further hosts, no next cycle). Only an absent fetch result is
handled: it parses to zero devices, the host renders as a bare header with
no device lines and no lookups, and the cycle completes. -/
theorem c1_parse_failure_is_fatal :
  ∀ (scr : Screen) (su : Option String) (ct : Nat)
    (subproc : List String → CmdOutcome XmlNode) (lookup : String → CmdOutcome String)
    (servers : List String) (server : String) (col off : Nat),
  ((∃ s ∈ servers, get_gpu_infos (fetch_nvidiasmi su ct subproc s).fst = none) →
      mainCycle scr su ct subproc lookup servers = none) ∧
  ((∀ s ∈ servers, (get_gpu_infos (fetch_nvidiasmi su ct subproc s).fst).isSome) →
      (mainCycle scr su ct subproc lookup servers).isSome) ∧
  get_gpu_infos none = some [] ∧
  ((display_gpu_infos scr lookup server [] col off).cmds = [] ∧
   (display_gpu_infos scr lookup server [] col off).logs = []) := by
  intro scr su ct subproc lookup servers server col off
  refine ⟨mainCycle_none scr su ct subproc lookup servers,
    mainCycle_isSome scr su ct subproc lookup servers, rfl, ?_⟩
  unfold display_gpu_infos
  cases h : (trySeq scr off ["Server: " ++ server] col []).snd <;>
    simp [h, renderDevices]

/-- C1 counterexample: with host A returning the malformed tree, the parse
failure aborts the whole cycle (`none` = uncaught exception terminating
the process); the loop does not continue to host B and no bare header is
rendered, contradicting the claim. -/
theorem c1_counterexample :
    get_gpu_infos (some c1BadRoot) = none ∧
    mainCycle ⟨24, 80⟩ none 10 (fun _ => CmdOutcome.success c1BadRoot)
      (fun _ => CmdOutcome.success "") ["hostA", "hostB"] = none := by
  exact ⟨rfl, rfl⟩

/-- C1 witness at concrete inputs. -/
theorem c1_witness :
    mainCycle ⟨24, 80⟩ none 10 (fun _ => CmdOutcome.success c1BadRoot)
      (fun _ => CmdOutcome.success "") ["hostX"] = none ∧
    (mainCycle ⟨24, 80⟩ none 10 (fun _ => CmdOutcome.timedOut c1BadRoot)
      (fun _ => CmdOutcome.success "") ["hostX"]).isSome ∧
    (display_gpu_infos ⟨24, 80⟩ (fun _ => CmdOutcome.success "") "hostX" [] 0 0).cmds
      = [] := by
  refine ⟨?_, ?_, ?_⟩
  · exact (c1_parse_failure_is_fatal ⟨24, 80⟩ none 10
      (fun _ => CmdOutcome.success c1BadRoot) (fun _ => CmdOutcome.success "")
      ["hostX"] "hostX" 0 0).1 ⟨"hostX", by decide, by rfl⟩
  · exact (c1_parse_failure_is_fatal ⟨24, 80⟩ none 10
      (fun _ => CmdOutcome.timedOut c1BadRoot) (fun _ => CmdOutcome.success "")
      ["hostX"] "hostX" 0 0).2.1 (by decide)
  · exact (c1_parse_failure_is_fatal ⟨24, 80⟩ none 10
      (fun _ => CmdOutcome.success c1BadRoot) (fun _ => CmdOutcome.success "")
      ["hostX"] "hostX" 0 0).2.2.2.1

/-! ## Renderer row lemmas and C10 -/

/-- The user loop never moves the row cursor backwards. -/
theorem renderUsers_row_le (scr : Screen) (col : Nat) :
    ∀ (um : List (String × Int)) (row : Nat) (ws : List WriteAttempt),
      row ≤ (renderUsers scr col um row ws).fst := by
  intro um
  induction um with
  | nil => intro row ws; simp [renderUsers]
  | cons u rest ih =>
    intro row ws
    unfold renderUsers
    cases h : (trySeq scr row ["  User: ", u.fst, ", Memory Used: ",
        toString u.snd ++ " MiB"] col ws).snd
    · simp [h]
    · simp only [h, if_true]
      exact le_trans (Nat.le_succ row) (ih (row + 1) _)

/-- One device block never moves the row cursor backwards. -/
theorem renderDevice_row_le (scr : Screen) (lookup : String → CmdOutcome String)
    (server : String) (col : Nat) (g : GpuInfo) (row : Nat) (ws : List WriteAttempt) :
    row ≤ (renderDevice scr lookup server col g row ws).fst := by
  unfold renderDevice
  dsimp only
  split
  · split
    · split
      · split
        · split
          · exact le_trans (Nat.le_add_right row 4) (renderUsers_row_le scr col _ _ _)
          · exact le_trans (le_trans (Nat.le_add_right row 4)
              (renderUsers_row_le scr col _ _ _)) (Nat.le_succ _)
        · dsimp only; omega
      · dsimp only; omega
    · dsimp only; omega
  · dsimp only; omega

/-- The device loop never moves the row cursor backwards. -/
theorem renderDevices_row_le (scr : Screen) (lookup : String → CmdOutcome String)
    (server : String) (col : Nat) :
    ∀ (infos : List GpuInfo) (row : Nat) (ws : List WriteAttempt) (logs cmds : List String),
      row ≤ (renderDevices scr lookup server col infos row ws logs cmds).fst := by
  intro infos
  induction infos with
  | nil => intro row ws logs cmds; simp [renderDevices]
  | cons g rest ih =>
    intro row ws logs cmds
    unfold renderDevices
    dsimp only
    split
    · exact le_refl row
    · split
      · exact renderDevice_row_le scr lookup server col g row ws
      · exact le_trans (renderDevice_row_le scr lookup server col g row ws) (ih _ _ _ _)

/-- A failed header write makes the renderer return its starting offset
at once, recording only the failed attempt. -/
theorem display_header_fail (scr : Screen) (lookup : String → CmdOutcome String)
    (server : String) (infos : List GpuInfo) (col off : Nat)
    (h : addstrOk scr off col ("Server: " ++ server) = false) :
    display_gpu_infos scr lookup server infos col off
      = ⟨off, [⟨off, col, "Server: " ++ server, false⟩], [], []⟩ := by
  unfold display_gpu_infos
  rw [trySeq_single]
  simp [h]

/-! ## C10 -/

/-- C10: rendering a host block never moves the column cursor backwards:
the returned offset is at least the starting offset, equals it exactly
when even the header write fails, and otherwise exceeds it by at least
three rows. -/
theorem c10_row_offset_monotone :
  ∀ (scr : Screen) (lookup : String → CmdOutcome String) (server : String)
    (infos : List GpuInfo) (col off : Nat),
  off ≤ (display_gpu_infos scr lookup server infos col off).row ∧
  ((display_gpu_infos scr lookup server infos col off).row = off ↔
      addstrOk scr off col ("Server: " ++ server) = false) ∧
  (addstrOk scr off col ("Server: " ++ server) = true →
      off + 3 ≤ (display_gpu_infos scr lookup server infos col off).row) := by
  intro scr lookup server infos col off
  cases h : addstrOk scr off col ("Server: " ++ server) with
  | false =>
    rw [display_header_fail scr lookup server infos col off h]
    exact ⟨le_refl off, by simp, fun ht => by simp at ht⟩
  | true =>
    have hge : off + 3 ≤ (display_gpu_infos scr lookup server infos col off).row := by
      unfold display_gpu_infos
      rw [trySeq_single]
      simp only [h, List.nil_append, if_true]
      have := renderDevices_row_le scr lookup server col infos (off + 1)
        [⟨off, col, "Server: " ++ server, true⟩] [] []
      omega
    refine ⟨le_trans (Nat.le_add_right off 3) hge, ?_, fun _ => hge⟩
    constructor
    · intro he
      exact absurd (he ▸ hge) (by omega)
    · intro hf
      simp at hf

/-- C10 witness at concrete inputs. -/
theorem c10_witness :
    0 + 3 ≤ (display_gpu_infos ⟨24, 80⟩ (fun _ => CmdOutcome.success "") "h" [] 0 0).row ∧
    30 ≤ (display_gpu_infos ⟨24, 80⟩ (fun _ => CmdOutcome.success "") "h" [] 0 30).row := by
  constructor
  · exact (c10_row_offset_monotone ⟨24, 80⟩ (fun _ => CmdOutcome.success "") "h" [] 0 0).2.2
      (by decide)
  · exact (c10_row_offset_monotone ⟨24, 80⟩ (fun _ => CmdOutcome.success "") "h" [] 0 30).1

/-! ## C3 -/

/-- The command list produced by one device block: nothing when the block
aborts early or the device has no processes, else exactly the one batched
lookup command for that device's pids. -/
theorem renderDevice_cmds (scr : Screen) (lookup : String → CmdOutcome String)
    (server : String) (col : Nat) (g : GpuInfo) (row : Nat) (ws : List WriteAttempt) :
    (renderDevice scr lookup server col g row ws).snd.snd.snd.fst = [] ∨
    (g.processes ≠ [] ∧ (renderDevice scr lookup server col g row ws).snd.snd.snd.fst
      = [user_info_remote_cmd (g.processes.map ProcessEntry.pid)]) := by
  have hui : (get_user_info lookup server (g.processes.map ProcessEntry.pid)).snd.snd = []
      ∨ (g.processes ≠ [] ∧
          (get_user_info lookup server (g.processes.map ProcessEntry.pid)).snd.snd
            = [user_info_remote_cmd (g.processes.map ProcessEntry.pid)]) := by
    rw [get_user_info_cmds]
    cases hp : g.processes with
    | nil => simp
    | cons p ps => exact Or.inr ⟨by simp, by simp⟩
  unfold renderDevice
  dsimp only
  split
  · split
    · split
      · split
        · split
          · exact hui
          · exact hui
        · exact Or.inl rfl
      · exact Or.inl rfl
    · exact Or.inl rfl
  · exact Or.inl rfl

/-- The device loop issues at most one lookup command per device, each the
batched command for that device's pids. -/
theorem renderDevices_cmds (scr : Screen) (lookup : String → CmdOutcome String)
    (server : String) (col : Nat) :
    ∀ (infos : List GpuInfo) (row : Nat) (ws : List WriteAttempt) (logs cmds : List String),
      ∃ extra, (renderDevices scr lookup server col infos row ws logs cmds).snd.snd.snd
          = cmds ++ extra ∧
        extra.length ≤ infos.length ∧
        ∀ c ∈ extra, ∃ g ∈ infos, g.processes ≠ [] ∧
          c = user_info_remote_cmd (g.processes.map ProcessEntry.pid) := by
  intro infos
  induction infos with
  | nil =>
    intro row ws logs cmds
    exact ⟨[], by simp [renderDevices], by simp, by simp⟩
  | cons g rest ih =>
    intro row ws logs cmds
    have hdc := renderDevice_cmds scr lookup server col g row ws
    have hdlen : (renderDevice scr lookup server col g row ws).snd.snd.snd.fst.length ≤ 1 := by
      rcases hdc with h | ⟨_, h⟩ <;> simp [h]
    have hdmem : ∀ c ∈ (renderDevice scr lookup server col g row ws).snd.snd.snd.fst,
        g.processes ≠ [] ∧ c = user_info_remote_cmd (g.processes.map ProcessEntry.pid) := by
      rcases hdc with h | ⟨hne, h⟩
      · simp [h]
      · rw [h]
        intro c hc
        rw [List.mem_singleton] at hc
        exact ⟨hne, hc⟩
    unfold renderDevices
    dsimp only
    split
    · exact ⟨[], by simp, by simp, by simp⟩
    · split
      · refine ⟨(renderDevice scr lookup server col g row ws).snd.snd.snd.fst, rfl, ?_, ?_⟩
        · simp only [List.length_cons]
          omega
        · intro c hc
          exact ⟨g, by simp, hdmem c hc⟩
      · obtain ⟨extra2, heq, hlen, hmem⟩ := ih (renderDevice scr lookup server col g row ws).fst
          (renderDevice scr lookup server col g row ws).snd.fst
          (logs ++ (renderDevice scr lookup server col g row ws).snd.snd.fst)
          (cmds ++ (renderDevice scr lookup server col g row ws).snd.snd.snd.fst)
        refine ⟨(renderDevice scr lookup server col g row ws).snd.snd.snd.fst ++ extra2,
          ?_, ?_, ?_⟩
        · rw [heq, List.append_assoc]
        · simp only [List.length_append, List.length_cons]
          omega
        · intro c hc
          rcases List.mem_append.mp hc with hc1 | hc2
          · exact ⟨g, by simp, hdmem c hc1⟩
          · obtain ⟨g2, hg2, hp⟩ := hmem c hc2
            exact ⟨g2, by simp [hg2], hp⟩

/-- Rendering one host issues at most one lookup command per device of
that host, each batching exactly that device's pids. -/
theorem display_cmds (scr : Screen) (lookup : String → CmdOutcome String) (server : String)
    (infos : List GpuInfo) (col off : Nat) :
    (display_gpu_infos scr lookup server infos col off).cmds.length ≤ infos.length ∧
    ∀ c ∈ (display_gpu_infos scr lookup server infos col off).cmds,
      ∃ g ∈ infos, g.processes ≠ [] ∧
        c = user_info_remote_cmd (g.processes.map ProcessEntry.pid) := by
  cases h : addstrOk scr off col ("Server: " ++ server)
  · rw [display_header_fail scr lookup server infos col off h]
    exact ⟨by simp, by simp⟩
  · have hcmds : (display_gpu_infos scr lookup server infos col off).cmds
        = (renderDevices scr lookup server col infos (off + 1)
            [⟨off, col, "Server: " ++ server, true⟩] [] []).snd.snd.snd := by
      unfold display_gpu_infos
      rw [trySeq_single]
      simp [h]
    obtain ⟨extra, heq, hlen, hmem⟩ := renderDevices_cmds scr lookup server col infos
      (off + 1) [⟨off, col, "Server: " ++ server, true⟩] [] []
    rw [List.nil_append] at heq
    rw [hcmds, heq]
    exact ⟨hlen, hmem⟩

/-- C3 (amended): owner resolution batches by device, not by target: each
`get_user_info` call for a non-empty pid list issues exactly one
comma-joined command, an empty pid list issues none, and rendering a host
issues at most one command per device, each batching exactly that single
device's process identifiers. -/
theorem c3_lookup_per_device :
  ∀ (lookup : String → CmdOutcome String) (server : String) (pids : List String)
    (scr : Screen) (infos : List GpuInfo) (col off : Nat),
  (pids ≠ [] → (get_user_info lookup server pids).snd.snd = [user_info_remote_cmd pids]) ∧
  ((get_user_info lookup server []).snd.snd = []) ∧
  ((display_gpu_infos scr lookup server infos col off).cmds.length ≤ infos.length) ∧
  (∀ c ∈ (display_gpu_infos scr lookup server infos col off).cmds,
      ∃ g ∈ infos, g.processes ≠ [] ∧
        c = user_info_remote_cmd (g.processes.map ProcessEntry.pid)) := by
  intro lookup server pids scr infos col off
  refine ⟨?_, rfl, (display_cmds scr lookup server infos col off).1,
    (display_cmds scr lookup server infos col off).2⟩
  intro hne
  rw [get_user_info_cmds]
  cases pids with
  | nil => exact absurd rfl hne
  | cons p ps => rfl

/-- C3 counterexample: a target with two devices issues two lookup
commands in one cycle — one per device, each listing only that device's
pids — not a single command listing the union "1,2". -/
theorem c3_counterexample :
    (display_gpu_infos ⟨100, 200⟩ (fun _ => CmdOutcome.success "alice") "hostA"
      [c3gpu1, c3gpu2] 0 0).cmds = ["ps -o user= -p 1", "ps -o user= -p 2"] ∧
    (display_gpu_infos ⟨100, 200⟩ (fun _ => CmdOutcome.success "alice") "hostA"
      [c3gpu1, c3gpu2] 0 0).cmds.length = 2 := by
  exact ⟨rfl, rfl⟩

/-- C3 witness at concrete inputs. -/
theorem c3_witness :
    (get_user_info (fun _ => CmdOutcome.success "alice") "hostA" ["1", "2"]).snd.snd
      = ["ps -o user= -p 1,2"] ∧
    (display_gpu_infos ⟨100, 200⟩ (fun _ => CmdOutcome.success "alice") "hostA"
      [c3gpu1, c3gpu2] 0 0).cmds.length ≤ 2 := by
  constructor
  · exact (c3_lookup_per_device (fun _ => CmdOutcome.success "alice") "hostA" ["1", "2"]
      ⟨100, 200⟩ [c3gpu1, c3gpu2] 0 0).1 (by decide)
  · exact (c3_lookup_per_device (fun _ => CmdOutcome.success "alice") "hostA" ["1", "2"]
      ⟨100, 200⟩ [c3gpu1, c3gpu2] 0 0).2.2.1

/-! ## C5 -/

/-- How one `defaultdict` bump changes a looked-up total. -/
theorem lookupD_bump (u u2 : String) (mem : Int) :
    ∀ acc : List (String × Int),
      lookupD (bumpUser acc u mem) u2 = lookupD acc u2 + (if u = u2 then mem else 0) := by
  intro acc
  induction acc with
  | nil =>
    by_cases h : u = u2 <;> simp [bumpUser, lookupD, h]
  | cons kv rest ih =>
    by_cases h1 : kv.fst = u
    · by_cases h2 : kv.fst = u2
      · have he : u = u2 := h1.symm.trans h2
        simp [bumpUser, lookupD, h1, h2, he]
      · have hne : ¬u = u2 := fun he => h2 (h1.trans he)
        simp [bumpUser, lookupD, h1, h2, hne]
    · by_cases h2 : kv.fst = u2
      · have hne : ¬u = u2 := fun he => h1 (h2.trans he.symm)
        have hn2 : ¬u2 = u := fun he => hne he.symm
        simp [bumpUser, lookupD, h1, h2, hne, hn2]
      · simp [bumpUser, lookupD, h1, h2, ih]

/-- The aggregation fold accumulates exactly the per-owner memory sum. -/
theorem lookupD_agg_fold (m : List (String × String)) (u : String) :
    ∀ (ps : List ProcessEntry) (acc : List (String × Int)),
      lookupD (ps.foldl (fun a p => bumpUser a (ownerOf m p.pid) p.used_memory) acc) u
        = lookupD acc u + sumMemOf m u ps := by
  intro ps
  induction ps with
  | nil => intro acc; simp [sumMemOf]
  | cons p ps ih =>
    intro acc
    rw [List.foldl_cons, ih, lookupD_bump]
    simp only [sumMemOf]
    rw [add_assoc]

/-- A bump leaves the key sequence unchanged when the user is already
present, else appends the user at the end. -/
theorem bumpUser_keys (u : String) (mem : Int) :
    ∀ acc : List (String × Int),
      (bumpUser acc u mem).map Prod.fst
        = if u ∈ acc.map Prod.fst then acc.map Prod.fst
          else acc.map Prod.fst ++ [u] := by
  intro acc
  induction acc with
  | nil => simp [bumpUser]
  | cons kv rest ih =>
    by_cases h : kv.fst = u
    · have hc : u ∈ (kv :: rest).map Prod.fst := by
        rw [List.map_cons]
        exact List.mem_cons.mpr (Or.inl h.symm)
      rw [if_pos hc]
      simp [bumpUser, h]
    · have hm : u ∈ (kv :: rest).map Prod.fst ↔ u ∈ rest.map Prod.fst := by
        rw [List.map_cons, List.mem_cons]
        constructor
        · rintro (he | hr)
          · exact absurd he.symm h
          · exact hr
        · exact Or.inr
      by_cases h2 : u ∈ rest.map Prod.fst
      · rw [if_pos (hm.mpr h2)]
        simp [bumpUser, h, ih, h2]
      · rw [if_neg (fun hc => h2 (hm.mp hc))]
        simp [bumpUser, h, ih, h2]

/-- The aggregation fold produces keys in first-seen insertion order. -/
theorem agg_keys_fold (m : List (String × String)) :
    ∀ (ps : List ProcessEntry) (acc : List (String × Int)),
      (ps.foldl (fun a p => bumpUser a (ownerOf m p.pid) p.used_memory) acc).map Prod.fst
        = acc.map Prod.fst
          ++ firstSeen ((ps.map (fun p => ownerOf m p.pid)).filter
              (fun v => decide (v ∉ acc.map Prod.fst))) := by
  intro ps
  induction ps with
  | nil => intro acc; simp [firstSeen]
  | cons p ps ih =>
    intro acc
    rw [List.foldl_cons, ih, bumpUser_keys]
    by_cases hu : ownerOf m p.pid ∈ acc.map Prod.fst
    · rw [if_pos hu]
      have hd : decide (ownerOf m p.pid ∉ acc.map Prod.fst) = false :=
        decide_eq_false (not_not_intro hu)
      simp only [List.map_cons, List.filter_cons, hd]
      rfl
    · rw [if_neg hu]
      have hd : decide (ownerOf m p.pid ∉ acc.map Prod.fst) = true := decide_eq_true hu
      have hpt : ∀ v ∈ ps.map (fun p => ownerOf m p.pid),
          decide (v ∉ acc.map Prod.fst ++ [ownerOf m p.pid])
            = (decide ¬(v = ownerOf m p.pid) && decide (v ∉ acc.map Prod.fst)) := by
        intro v _
        by_cases hv1 : v ∈ acc.map Prod.fst
        · simp [hv1]
        · by_cases hv2 : v = ownerOf m p.pid <;> simp [hv1, hv2]
      simp only [List.map_cons, List.filter_cons, hd, if_true]
      rw [firstSeen, List.append_assoc, List.singleton_append]
      congr 1
      congr 1
      rw [List.filter_filter]
      congr 1
      exact List.filter_congr hpt

/-- C5 (amended): aggregation is per device (the fold runs over one
device's process list): the total displayed for a user is the sum of that
device's process memory owned by that user (owner defaulting to "Unknown"
for pids missing from the map), users appear in first-seen insertion
order, and the example sequence {A:100, B:50, A:30} on one device yields
A→130 then B→50. -/
theorem c5_per_device_aggregation :
  ∀ (m : List (String × String)) (ps : List ProcessEntry) (u : String),
    lookupD (aggregateUsers m ps) u = sumMemOf m u ps ∧
    (aggregateUsers m ps).map Prod.fst
      = firstSeen (ps.map (fun p => ownerOf m p.pid)) ∧
    aggregateUsers [("1", "A"), ("2", "B"), ("3", "A")]
      [⟨"1", 100⟩, ⟨"2", 50⟩, ⟨"3", 30⟩] = [("A", 130), ("B", 50)] := by
  intro m ps u
  refine ⟨?_, ?_, by decide⟩
  · have h := lookupD_agg_fold m u ps []
    simpa [aggregateUsers, lookupD] using h
  · have h := agg_keys_fold m ps []
    simpa [aggregateUsers] using h

/-- C5 counterexample: with user A owning 100 MiB and 30 MiB on two
different devices of one Target (and B owning 50 MiB), the rendered frame
lists user A twice — once per device, with separate totals 100 and 30 —
and never shows the target-wide total 130, so aggregation does not produce
one UserUsage per Target over all of its DeviceRecords. -/
theorem c5_counterexample :
    ((display_gpu_infos ⟨100, 200⟩ c5lookup "hostA" [c5gpu1, c5gpu2] 0 0).writes.map
        WriteAttempt.text).count "A" = 2 ∧
    ((display_gpu_infos ⟨100, 200⟩ c5lookup "hostA" [c5gpu1, c5gpu2] 0 0).writes.map
        WriteAttempt.text).count "100 MiB" = 1 ∧
    ((display_gpu_infos ⟨100, 200⟩ c5lookup "hostA" [c5gpu1, c5gpu2] 0 0).writes.map
        WriteAttempt.text).count "30 MiB" = 1 ∧
    ((display_gpu_infos ⟨100, 200⟩ c5lookup "hostA" [c5gpu1, c5gpu2] 0 0).writes.map
        WriteAttempt.text).count "130 MiB" = 0 := by
  exact ⟨rfl, rfl, rfl, rfl⟩

/-! ## C6 -/

/-- `trySeq` only records faithful attempts. -/
theorem trySeq_fits (scr : Screen) (row : Nat) :
    ∀ (ts : List String) (c : Nat) (ws : List WriteAttempt),
      (∀ w ∈ ws, attemptFits scr w) →
      ∀ w ∈ (trySeq scr row ts c ws).fst, attemptFits scr w := by
  intro ts
  induction ts with
  | nil =>
    intro c ws h w hw
    exact h w (by simpa [trySeq] using hw)
  | cons t rest ih =>
    intro c ws h w hw
    cases hok : addstrOk scr row c t with
    | true =>
      have hws2 : ∀ w ∈ ws ++ [(⟨row, c, t, true⟩ : WriteAttempt)], attemptFits scr w := by
        intro w hw2
        rcases List.mem_append.mp hw2 with h1 | h1
        · exact h w h1
        · rw [List.mem_singleton] at h1
          subst h1
          exact hok.symm
      have heq : (trySeq scr row (t :: rest) c ws).fst
          = (trySeq scr row rest (c + t.length)
              (ws ++ [(⟨row, c, t, true⟩ : WriteAttempt)])).fst := by
        simp [trySeq, hok]
      rw [heq] at hw
      exact ih (c + t.length) _ hws2 w hw
    | false =>
      have hws2 : ∀ w ∈ ws ++ [(⟨row, c, t, false⟩ : WriteAttempt)], attemptFits scr w := by
        intro w hw2
        rcases List.mem_append.mp hw2 with h1 | h1
        · exact h w h1
        · rw [List.mem_singleton] at h1
          subst h1
          exact hok.symm
      have heq : (trySeq scr row (t :: rest) c ws).fst
          = ws ++ [(⟨row, c, t, false⟩ : WriteAttempt)] := by
        simp [trySeq, hok]
      rw [heq] at hw
      exact hws2 w hw

/-- The user loop only records faithful attempts. -/
theorem renderUsers_fits (scr : Screen) (col : Nat) :
    ∀ (um : List (String × Int)) (row : Nat) (ws : List WriteAttempt),
      (∀ w ∈ ws, attemptFits scr w) →
      ∀ w ∈ (renderUsers scr col um row ws).snd.fst, attemptFits scr w := by
  intro um
  induction um with
  | nil =>
    intro row ws h w hw
    exact h w (by simpa [renderUsers] using hw)
  | cons u rest ih =>
    intro row ws h w hw
    have ht := trySeq_fits scr row ["  User: ", u.fst, ", Memory Used: ",
      toString u.snd ++ " MiB"] col ws h
    cases hok : (trySeq scr row ["  User: ", u.fst, ", Memory Used: ",
        toString u.snd ++ " MiB"] col ws).snd with
    | true =>
      have heq : (renderUsers scr col (u :: rest) row ws).snd.fst
          = (renderUsers scr col rest (row + 1)
              (trySeq scr row ["  User: ", u.fst, ", Memory Used: ",
                toString u.snd ++ " MiB"] col ws).fst).snd.fst := by
        simp [renderUsers, hok]
      rw [heq] at hw
      exact ih (row + 1) _ ht w hw
    | false =>
      have heq : (renderUsers scr col (u :: rest) row ws).snd.fst
          = (trySeq scr row ["  User: ", u.fst, ", Memory Used: ",
              toString u.snd ++ " MiB"] col ws).fst := by
        simp [renderUsers, hok]
      rw [heq] at hw
      exact ht w hw

/-- One device block only records faithful attempts. -/
theorem renderDevice_fits (scr : Screen) (lookup : String → CmdOutcome String)
    (server : String) (col : Nat) (g : GpuInfo) (row : Nat) (ws : List WriteAttempt)
    (h : ∀ w ∈ ws, attemptFits scr w) :
    ∀ w ∈ (renderDevice scr lookup server col g row ws).snd.fst, attemptFits scr w := by
  have h1 := trySeq_fits scr row
    ["GPU " ++ (g.index.getD "None") ++ " - " ++ (g.name.getD "None")] col ws h
  have h2 := trySeq_fits scr (row + 1)
    ["  Memory Total: " ++ toString g.memory_total ++ " MiB"] col _ h1
  have h3 := trySeq_fits scr (row + 2)
    ["  Memory Used: ", toString g.memory_used ++ " MiB"] col _ h2
  have h4 := trySeq_fits scr (row + 3)
    ["  Memory Free: ", toString g.memory_free ++ " MiB"] col _ h3
  have h5 := renderUsers_fits scr col
    (aggregateUsers (get_user_info lookup server (g.processes.map ProcessEntry.pid)).fst
      g.processes) (row + 4) _ h4
  unfold renderDevice
  dsimp only
  split
  · split
    · split
      · split
        · split
          · exact h5
          · exact h5
        · exact h4
      · exact h3
    · exact h2
  · exact h1

/-- The device loop only records faithful attempts. -/
theorem renderDevices_fits (scr : Screen) (lookup : String → CmdOutcome String)
    (server : String) (col : Nat) :
    ∀ (infos : List GpuInfo) (row : Nat) (ws : List WriteAttempt) (logs cmds : List String),
      (∀ w ∈ ws, attemptFits scr w) →
      ∀ w ∈ (renderDevices scr lookup server col infos row ws logs cmds).snd.fst,
        attemptFits scr w := by
  intro infos
  induction infos with
  | nil =>
    intro row ws logs cmds h w hw
    exact h w (by simpa [renderDevices] using hw)
  | cons g rest ih =>
    intro row ws logs cmds h w hw
    have hd := renderDevice_fits scr lookup server col g row ws h
    by_cases hc : row ≥ scr.lines - 1
    · have heq : (renderDevices scr lookup server col (g :: rest) row ws logs cmds).snd.fst
          = ws := by
        simp [renderDevices, hc]
      rw [heq] at hw
      exact h w hw
    · cases hcr : (renderDevice scr lookup server col g row ws).snd.snd.snd.snd with
      | true =>
        have heq : (renderDevices scr lookup server col (g :: rest) row ws logs cmds).snd.fst
            = (renderDevice scr lookup server col g row ws).snd.fst := by
          simp [renderDevices, hc, hcr]
        rw [heq] at hw
        exact hd w hw
      | false =>
        have heq : (renderDevices scr lookup server col (g :: rest) row ws logs cmds).snd.fst
            = (renderDevices scr lookup server col rest
                (renderDevice scr lookup server col g row ws).fst
                (renderDevice scr lookup server col g row ws).snd.fst
                (logs ++ (renderDevice scr lookup server col g row ws).snd.snd.fst)
                (cmds ++ (renderDevice scr lookup server col g row ws).snd.snd.snd.fst)).snd.fst := by
          simp [renderDevices, hc, hcr]
        rw [heq] at hw
        exact ih _ _ _ _ hd w hw

/-- Every attempt recorded while rendering a host block is faithful. -/
theorem display_fits (scr : Screen) (lookup : String → CmdOutcome String) (server : String)
    (infos : List GpuInfo) (col off : Nat) :
    ∀ w ∈ (display_gpu_infos scr lookup server infos col off).writes, attemptFits scr w := by
  have h0 : ∀ w ∈ ([] : List WriteAttempt), attemptFits scr w := by simp
  have h1 := trySeq_fits scr off ["Server: " ++ server] col [] h0
  have h2 := renderDevices_fits scr lookup server col infos (off + 1)
    (trySeq scr off ["Server: " ++ server] col []).fst [] [] h1
  unfold display_gpu_infos
  dsimp only
  split
  · split
    · exact trySeq_fits scr _ [dashRule scr] col _ h2
    · exact h2
  · exact h1

/-- C6 (amended): bounds enforcement is a per-device pre-check plus
catching of raised write errors, not a per-write pre-check: a write may be
attempted beyond the surface, but every successful write lies inside the
bounds, every failed write was genuinely out of bounds (the caught
`curses.error`), and a failed header write returns the starting offset at
once with the rest of the host dropped; the renderer is total, so nothing
ever propagates out of the loop. -/
theorem c6_bounds_policy :
  ∀ (scr : Screen) (lookup : String → CmdOutcome String) (server : String)
    (infos : List GpuInfo) (col off : Nat),
  (∀ w ∈ (display_gpu_infos scr lookup server infos col off).writes,
      w.ok = true → w.row < scr.lines ∧ w.col + w.text.length ≤ scr.cols) ∧
  (∀ w ∈ (display_gpu_infos scr lookup server infos col off).writes,
      w.ok = false → scr.lines ≤ w.row ∨ scr.cols < w.col + w.text.length) ∧
  (addstrOk scr off col ("Server: " ++ server) = false →
      display_gpu_infos scr lookup server infos col off
        = ⟨off, [⟨off, col, "Server: " ++ server, false⟩], [], []⟩) := by
  intro scr lookup server infos col off
  refine ⟨?_, ?_, display_header_fail scr lookup server infos col off⟩
  · intro w hw hok
    have hf := display_fits scr lookup server infos col off w hw
    unfold attemptFits at hf
    rw [hok] at hf
    have h2 := hf.symm
    unfold addstrOk at h2
    rw [Bool.and_eq_true] at h2
    exact ⟨of_decide_eq_true h2.1, of_decide_eq_true h2.2⟩
  · intro w hw hok
    have hf := display_fits scr lookup server infos col off w hw
    unfold attemptFits at hf
    rw [hok] at hf
    have h2 : ¬(w.row < scr.lines ∧ w.col + w.text.length ≤ scr.cols) := by
      intro hb
      have hko : addstrOk scr w.row w.col w.text = true := by
        unfold addstrOk
        rw [Bool.and_eq_true]
        exact ⟨decide_eq_true hb.1, decide_eq_true hb.2⟩
      rw [hko] at hf
      simp at hf
    by_cases hr : w.row < scr.lines
    · right
      by_cases hcc : w.col + w.text.length ≤ scr.cols
      · exact absurd ⟨hr, hcc⟩ h2
      · omega
    · left
      omega

/-- C6 counterexample: on a 3-row surface the per-device check passes at
row 1, and the block then attempts a write at row 3 — beyond the surface —
with no preceding row check; the attempt fails (caught error), so writes
are not each pre-checked against the row count as the claim states. -/
theorem c6_counterexample :
    ∃ w ∈ (display_gpu_infos ⟨3, 80⟩ (fun _ => CmdOutcome.success "alice") "h"
      [c6gpu] 0 0).writes, w.ok = false ∧ 3 ≤ w.row := by
  decide

/-- C6 witness at concrete inputs. -/
theorem c6_witness :
    (0 < 24 ∧ 0 + ("Server: h").length ≤ 80) ∧
    display_gpu_infos ⟨24, 80⟩ (fun _ => CmdOutcome.success "") "h" [] 0 30
      = ⟨30, [⟨30, 0, "Server: h", false⟩], [], []⟩ := by
  constructor
  · exact (c6_bounds_policy ⟨24, 80⟩ (fun _ => CmdOutcome.success "") "h" [] 0 0).1
      ⟨0, 0, "Server: h", true⟩ (by decide) rfl
  · exact (c6_bounds_policy ⟨24, 80⟩ (fun _ => CmdOutcome.success "") "h" [] 0 30).2.2
      (by decide)
